import Mathlib

/-!
Verification development for the alcib build-stage orchestration engine
(`main.py`, `lib/hypervisors.py`).

The Python code is shallowly embedded: pure string manipulation becomes
Lean functions over character lists (Python's `str.split`, `str.strip`,
whitespace `split()`, `str.replace`, regular-expression scans are
reimplemented with structural recursion so that every definition
evaluates inside the kernel), remote commands become calls into an
explicit oracle `exec : String → Except ExecuteError String`, and each
stage function returns the list of observable events it performed
together with its outcome, mirroring the source's control flow
including `try`/`except`/`finally` blocks.
-/

namespace Alcib

/-! ### Python string primitives over character lists -/

/-- Worker for `pySplitOn`: Python's `str.split(sep)` for a non-empty
separator, over characters.  `fuel` bounds the recursion; every step
either consumes at least one character or finishes, so `length + 1`
fuel is always enough. -/
def splitOnCGo (sep : List Char) : Nat → List Char → List Char → List (List Char)
  | 0, acc, rest => [acc.reverse ++ rest]
  | fuel + 1, acc, l =>
    if sep.isPrefixOf l then
      acc.reverse :: splitOnCGo sep fuel [] (l.drop sep.length)
    else
      match l with
      | [] => [acc.reverse]
      | c :: rest => splitOnCGo sep fuel (c :: acc) rest

/-- Python `s.split(sep)` for a non-empty separator: split at every
non-overlapping occurrence, keeping empty pieces. -/
def pySplitOn (sep s : String) : List String :=
  (splitOnCGo sep.data (s.data.length + 1) [] s.data).map fun l => ⟨l⟩

/-- Python `s.strip()`: remove leading and trailing whitespace. -/
def pyStrip (s : String) : String :=
  ⟨((s.data.dropWhile Char.isWhitespace).reverse.dropWhile Char.isWhitespace).reverse⟩

/-- Worker for `pySplitWs`: split on whitespace runs, dropping empty
tokens, with the current token accumulated in reverse. -/
def wsTokensGo (cur : List Char) : List Char → List (List Char)
  | [] => if cur.isEmpty then [] else [cur.reverse]
  | c :: rest =>
    if c.isWhitespace then
      if cur.isEmpty then wsTokensGo [] rest
      else cur.reverse :: wsTokensGo [] rest
    else wsTokensGo (c :: cur) rest

/-- Python `s.split()` with no argument: the whitespace-separated
tokens, with no empty strings. -/
def pySplitWs (s : String) : List String :=
  (wsTokensGo [] s.data).map fun l => ⟨l⟩

/-- Python `s.replace(old, new)` for a non-empty `old`. -/
def pyReplace (s old new : String) : String :=
  ⟨List.intercalate new.data (splitOnCGo old.data (s.data.length + 1) [] s.data)⟩

/-- Python `s.lower()` (ASCII, which is all the sources use). -/
def pyLower (s : String) : String := ⟨s.data.map Char.toLower⟩

/-! ### PackageDeltaAnalyzer (`create_docker_branch`, hypervisors.py 655–734) -/

/-- A parsed RPM package record (the design's `PackageRecord`): name,
version, release, and the release with the distro-tag suffix stripped
(`clean_release`).  `create_docker_branch` in `lib/hypervisors.py`
consumes these records; the parser itself lives in `lib/utils.py`,
outside the given sources, so records enter the embedding as data. -/
structure Package where
  name : String
  version : String
  release : String
  clean_release : String
deriving DecidableEq, Repr

/-- Python `re.sub('^\d+:', '', s)` (hypervisors.py line 703): strip a
single leading epoch prefix made of one or more digits followed by a
colon. -/
def removeEpoch (s : String) : String :=
  if (s.data.takeWhile Char.isDigit).isEmpty then s
  else
    match s.data.dropWhile Char.isDigit with
    | ':' :: rest => ⟨rest⟩
    | _ => s

/-- The version a changelog chunk declares: the last whitespace-separated
token of its first line (`changelog_record.split('\n')[0].split()[-1]`,
hypervisors.py line 701).  Total: an all-whitespace first line yields
`""` where Python would raise, but the loop only applies this to
stripped non-empty chunks, whose first line has at least one token. -/
def declaredVersion (chunk : String) : String :=
  (pySplitWs ((pySplitOn "\n" chunk).headD "")).getLastD ""

/-- The body of a changelog chunk, i.e. every line after the first
(`'\n'.join(changelog_record.split('\n')[1:])`, hypervisors.py
line 710). -/
def chunkBody (chunk : String) : String :=
  String.intercalate "\n" ((pySplitOn "\n" chunk).drop 1)

/-- One attempt to match the regex `CVE-[0-9]*-[0-9]*` (hypervisors.py
line 711) at the very start of the character list.  On success, returns
the matched text and the remaining characters.  Since `[0-9]*` is
greedy and followed by a literal that is not a digit, the matching is
deterministic: literal `CVE-`, a maximal digit run, `-`, a maximal
digit run. -/
def matchCveAt : List Char → Option (String × List Char)
  | 'C' :: 'V' :: 'E' :: '-' :: rest =>
    match rest.dropWhile Char.isDigit with
    | '-' :: r2 =>
      some (⟨'C' :: 'V' :: 'E' :: '-' :: (rest.takeWhile Char.isDigit ++ '-' :: r2.takeWhile Char.isDigit)⟩,
        r2.dropWhile Char.isDigit)
    | _ => none
  | _ => none

theorem length_dropWhile_le (p : Char → Bool) (l : List Char) :
    (l.dropWhile p).length ≤ l.length := by
  induction l with
  | nil => simp
  | cons a l ih =>
    rw [List.dropWhile]
    cases p a
    · simp
    · simp
      omega

/-- A successful match consumes at least the four characters `CVE-`,
so resuming after it strictly shrinks the input (this bounds the scan
of `findCvesGo`, for which `length + 1` fuel is always enough). -/
theorem matchCveAt_length (l : List Char) (m : String) (r : List Char)
    (h : matchCveAt l = some (m, r)) : r.length < l.length := by
  unfold matchCveAt at h
  split at h
  next rest =>
    split at h
    next r2 heq =>
      simp only [Option.some.injEq, Prod.mk.injEq] at h
      obtain ⟨-, rfl⟩ := h
      have h1 : (rest.dropWhile Char.isDigit).length ≤ rest.length :=
        length_dropWhile_le _ _
      rw [heq] at h1
      have h3 : (r2.dropWhile Char.isDigit).length ≤ r2.length :=
        length_dropWhile_le _ _
      simp only [List.length_cons] at *
      omega
    next => exact absurd h (by simp)
  next => exact absurd h (by simp)

/-- Worker for `findCves`, `re.findall(r'(CVE-[0-9]*-[0-9]*)', text)`:
scan left to right, collect non-overlapping matches in order
(duplicates kept), resuming after the end of each match, or one
character further when no match starts at the current position.  By
`matchCveAt_length` each step consumes at least one character, so
`length + 1` fuel is always enough. -/
def findCvesGo : Nat → List Char → List String
  | 0, _ => []
  | _, [] => []
  | fuel + 1, c :: rest =>
    match matchCveAt (c :: rest) with
    | some (m, r) => m :: findCvesGo fuel r
    | none => findCvesGo fuel rest

/-- All `CVE-<digits>-<digits>` identifiers of a string, in order of
occurrence, not deduplicated. -/
def findCves (s : String) : List String := findCvesGo (s.data.length + 1) s.data

/-- The changelog scan of `create_docker_branch` (hypervisors.py lines
696–711): walk the chunks in order, skip empty (stripped) chunks,
`break` before the first chunk whose epoch-stripped declared version
matches the removed package (three comparisons, in source order), and
otherwise accumulate the CVE identifiers of the chunk body. -/
def collectCves (removed : Package) : List String → List String
  | [] => []
  | chunk :: rest =>
    let c := pyStrip chunk
    if c = "" then collectCves removed rest
    else
      let v := removeEpoch (declaredVersion c)
      if v = removed.version ++ "-" ++ removed.clean_release then []
      else if v = removed.version ++ "-" ++ removed.release then []
      else if v = removed.version then []
      else findCves (chunkBody c) ++ collectCves removed rest

/-- The stop condition of the scan, as one boolean: the epoch-stripped
declared version of a stripped chunk equals `version-clean_release`,
`version-release`, or the bare `version` of the removed package. -/
def stopsAt (removed : Package) (c : String) : Bool :=
  removeEpoch (declaredVersion c) == removed.version ++ "-" ++ removed.clean_release ||
    removeEpoch (declaredVersion c) == removed.version ++ "-" ++ removed.release ||
    removeEpoch (declaredVersion c) == removed.version

/-- The report entry for one upgrade pair (hypervisors.py lines
693–713): the bullet header line, plus an indented `Fixes:` line when
the collected CVE list is non-empty.  `changelog` is the text returned
by `rpm -q --changelog` for the added package; chunks are separated by
blank lines (`split('\n\n')`). -/
def pairHeader (added removed : Package) (changelog : String) : String :=
  let header := "- " ++ added.name ++ " upgraded from " ++ removed.version ++ "-" ++
    removed.release ++ " to " ++ added.version ++ "-" ++ added.release
  let cve_list := collectCves removed (pySplitOn "\n\n" changelog)
  if cve_list ≠ [] then header ++ "\n  Fixes: " ++ String.intercalate ", " cve_list
  else header

/-- First-occurrence deduplication, accumulator form: the iteration
order of a Python `dict` built by insertion (`collections.defaultdict`
keyed by package name, hypervisors.py lines 680–684). -/
def firstOccsGo (seen : List String) : List String → List String
  | [] => []
  | a :: l => if a ∈ seen then firstOccsGo seen l else a :: firstOccsGo (a :: seen) l

/-- The distinct package names of a diff, in first-occurrence order. -/
def firstOccs (l : List String) : List String := firstOccsGo [] l

/-- `packages[name][sign]` after the grouping loop: the last record
with the given sign (later writes overwrite earlier ones). -/
def lastWithSign (sign : Char) (es : List (Char × Package)) : Option Package :=
  ((es.filter fun e => e.1 == sign).getLast?).map Prod.snd

/-- The report line produced for one package name, if any: present
exactly when the name has both a `'+'` and a `'-'` record
(hypervisors.py lines 690–694), using the last record of each sign and
the changelog fetched for the added package (`rpm -q --changelog
{package.name}`, modelled by the oracle `chlog` keyed on the name,
which is all the command uses). -/
def groupLine (chlog : String → String) (entries : List (Char × Package)) (n : String) :
    Option String :=
  let es := entries.filter fun e => e.2.name == n
  match lastWithSign '+' es, lastWithSign '-' es with
  | some added, some removed => some (pairHeader added removed (chlog n))
  | _, _ => none

/-- The report lines appended for one docker configuration: one line
per name with both signs, in first-occurrence order of the names
(Python dict iteration order), mirroring the `for pkg in
packages.values()` loop of `create_docker_branch`. -/
def buildReport (chlog : String → String) (entries : List (Char × Package)) : List String :=
  (firstOccs (entries.map fun e => e.2.name)).filterMap (groupLine chlog entries)

/-! ### Remote layer: errors, events, oracles

`safe_execute` on an open ssh session either returns the command's
output stream or raises `ExecuteError` (imported from `lib.builder`;
the design's `ExecuteError{exitStatus, stderr}`).  A remote host is
modelled by an oracle `exec : String → Except ExecuteError String`
mapping each command string to its stdout or its failure; the commands
issued by the embedded code are built exactly as in the source. -/

instance {ε α : Type} [DecidableEq ε] [DecidableEq α] : DecidableEq (Except ε α) := fun x y =>
  match x, y with
  | .ok a, .ok b =>
    if h : a = b then isTrue (h ▸ rfl) else isFalse fun he => h (Except.ok.inj he)
  | .error a, .error b =>
    if h : a = b then isTrue (h ▸ rfl) else isFalse fun he => h (Except.error.inj he)
  | .ok _, .error _ => isFalse fun he => Except.noConfusion he
  | .error _, .ok _ => isFalse fun he => Except.noConfusion he

/-- A failed remote command: non-zero exit status and stderr. -/
structure ExecuteError where
  exitStatus : Int
  stderr : String
deriving DecidableEq, Repr

/-- Errors that can escape a stage body: a remote command failure, or
Python's `IndexError` from `stdout.read().decode().split()[0]` on
whitespace-only output. -/
inductive Err where
  | executeError (e : ExecuteError)
  | indexError
deriving DecidableEq, Repr

/-- Observable events of a stage run, in order: opening the ssh
session, a top-level `safe_execute` with its full command string, the
two per-file remote commands of `upload_to_bucket` (tagged with their
arguments; their command strings are `checksumCmd` and `uploadCmd`),
an sftp download of a build log, the call into `upload_to_bucket` with
its file list, and closing the session. -/
inductive Ev where
  | connect
  | execute (cmd : String)
  | checksumAttempt (file : String)
  | uploadAttempt (file chk : String)
  | sftpDownload (file : String)
  | uploadBatch (files : List String)
  | close
deriving DecidableEq, Repr

/-! ### ArtifactTransfer: `upload_to_bucket` (hypervisors.py 264–291) -/

/-- The remote checksum command of `upload_to_bucket`:
`bash -c "sha256sum {file_path}/{file}"`. -/
def checksumCmd (filePath file : String) : String :=
  "bash -c \"sha256sum " ++ filePath ++ "/" ++ file ++ "\""

/-- The remote upload command of `upload_to_bucket`:
`bash -c "aws s3 cp {file_path}/{file} s3://{bucket}/{timestamp_name}/ --metadata sha256={checksum}"`. -/
def uploadCmd (filePath file bucket timestampName chk : String) : String :=
  "bash -c \"aws s3 cp " ++ filePath ++ "/" ++ file ++ " s3://" ++ bucket ++ "/" ++
    timestampName ++ "/ --metadata sha256=" ++ chk ++ "\""

/-- `stdout.read().decode().split()[0]`: the first whitespace-separated
token of the checksum command's output; `none` models the `IndexError`
Python raises when the output has no token. -/
def pyFirstToken (s : String) : Option String := (pySplitWs s).head?

/-- `upload_to_bucket` (hypervisors.py lines 264–291): for each file,
run the remote checksum command; if it raises `ExecuteError`,
`continue` to the next file; otherwise take the first token of its
output as the checksum and run the upload command, whose failure is
not caught and aborts the batch.  Returns the events performed and the
batch outcome. -/
def upload_to_bucket (exec : String → Except ExecuteError String)
    (filePath timestampName bucket : String) :
    List String → List Ev × Except Err Unit
  | [] => ([], .ok ())
  | file :: rest =>
    match exec (checksumCmd filePath file) with
    | .error _ =>
      let p := upload_to_bucket exec filePath timestampName bucket rest
      (Ev.checksumAttempt file :: p.1, p.2)
    | .ok out =>
      match pyFirstToken out with
      | none => ([Ev.checksumAttempt file], .error .indexError)
      | some chk =>
        match exec (uploadCmd filePath file bucket timestampName chk) with
        | .error e =>
          ([Ev.checksumAttempt file, Ev.uploadAttempt file chk], .error (.executeError e))
        | .ok _ =>
          let p := upload_to_bucket exec filePath timestampName bucket rest
          (Ev.checksumAttempt file :: Ev.uploadAttempt file chk :: p.1, p.2)

/-! ### ArtifactTransfer: `download_qcow` (hypervisors.py 124–156) -/

/-- Observable events of the qcow download loop: one S3 download
attempt, the `time.sleep(60)` back-off, and the `aws s3 sync` bulk
prefix fallback. -/
inductive DlEvent where
  | download
  | sleep60
  | fallbackSync
deriving DecidableEq, Repr

/-- The fatal error of the transfer layer (the design's
`TransferError`): the bulk-sync fallback itself failed and its
exception was re-raised (hypervisors.py line 155). -/
inductive TransferError where
  | syncFailed
deriving DecidableEq, Repr

/-- One iteration of `for i in range(5)` in `download_qcow`, from index
`i` with `fuel` iterations left (`fuel = 5 - i`; structural recursion
on `fuel`).  The body attempts the S3 download; on any exception it
sleeps 60 seconds and, only when `i == 4`, runs the bulk `aws s3 sync`
fallback, re-raising that fallback's own failure.  A successful
download does **not** break the loop.  `att i` tells whether attempt
`i` succeeds; `fallbackOk` whether the bulk sync succeeds. -/
def dlGo (att : Nat → Bool) (fallbackOk : Bool) : Nat → Nat → List DlEvent × Except TransferError Unit
  | _, 0 => ([], .ok ())
  | i, fuel + 1 =>
    if att i then
      let (t, r) := dlGo att fallbackOk (i + 1) fuel
      (DlEvent.download :: t, r)
    else
      if i = 4 then
        if fallbackOk then
          let (t, r) := dlGo att fallbackOk (i + 1) fuel
          (DlEvent.download :: DlEvent.sleep60 :: DlEvent.fallbackSync :: t, r)
        else
          ([DlEvent.download, DlEvent.sleep60, DlEvent.fallbackSync], .error .syncFailed)
      else
        let (t, r) := dlGo att fallbackOk (i + 1) fuel
        (DlEvent.download :: DlEvent.sleep60 :: t, r)

/-- `download_qcow`'s retry loop (hypervisors.py lines 137–155): five
iterations starting at index 0. -/
def download_qcow (att : Nat → Bool) (fallbackOk : Bool) :
    List DlEvent × Except TransferError Unit :=
  dlGo att fallbackOk 0 5

/-! ### `build_stage` (hypervisors.py 315–368) -/

/-- The per-run constants read from `lib.config.settings`, the
environment and the module-level timestamp globals: build number,
`TIMESTAMP`, `DT_SUFFIX`, and the S3 bucket name. -/
structure Settings where
  buildNumber : String
  timestamp : String
  dtSuffix : String
  bucket : String

/-- The per-hypervisor data of a `BaseHypervisor` subclass: identifier,
architecture, remote paths, and the packer command templates (class
attributes `packer_build_cmd`, `packer_build_gencloud`,
`packer_build_gencloud2`, `packer_build_opennebula`,
`packer_build_opennebula2`), each a function of the OS major version
and the log file name (the two `{}` slots of the Python template). -/
structure HvConfig where
  name : String
  arch : String
  cloud_images_path : String
  sftp_path : String
  packer_build_cmd : String → String → String
  packer_build_gencloud : String → String → String
  packer_build_gencloud2 : String → String → String
  packer_build_opennebula : String → String → String
  packer_build_opennebula2 : String → String → String

/-- The `KVM` class (hypervisors.py 883–922): its packer command
templates, with the `{}` slots of the Python format strings replaced
by the two arguments. -/
def kvmConfig : HvConfig where
  name := "kvm"
  arch := "x86_64"
  cloud_images_path := "/home/ec2-user/cloud-images"
  sftp_path := "/home/ec2-user/cloud-images/"
  packer_build_cmd := fun ver log =>
    "cd cloud-images && packer build -var qemu_binary=\x27/usr/libexec/qemu-kvm\x27 " ++
      "-only=qemu.almalinux-" ++ ver ++ " . 2>&1 | tee ./" ++ log
  packer_build_gencloud := fun ver log =>
    "cd cloud-images && packer build -var qemu_binary=\x27/usr/libexec/qemu-kvm\x27" ++
      " -var firmware_x86_64=\x27/usr/share/edk2.git/ovmf-x64/OVMF_CODE-pure-efi.fd\x27" ++
      " -only=qemu.almalinux-" ++ ver ++ "-gencloud-x86_64 . 2>&1 | tee ./" ++ log
  packer_build_gencloud2 := fun ver log =>
    "cd cloud-images && packer build -var qemu_binary=\x27/usr/libexec/qemu-kvm\x27" ++
      " -var firmware_x86_64=\x27/usr/share/edk2.git/ovmf-x64/OVMF_CODE-pure-efi.fd\x27" ++
      " -only=qemu.almalinux-" ++ ver ++ "-gencloud-uefi-x86_64 . 2>&1 | tee ./" ++ log
  packer_build_opennebula := fun ver log =>
    "cd cloud-images && packer build -var qemu_binary=\x27/usr/libexec/qemu-kvm\x27 " ++
      "-only=qemu.almalinux-" ++ ver ++ "-opennebula-x86_64 . 2>&1 | tee ./" ++ log
  packer_build_opennebula2 := fun ver log =>
    "cd cloud-images && packer build -var qemu_binary=\x27/usr/libexec/qemu-kvm\x27 " ++
      "-var firmware_x86_64=\x27/usr/share/edk2.git/ovmf-x64/OVMF_CODE-pure-efi.fd\x27 " ++
      "-only=qemu.almalinux-" ++ ver ++ "-opennebula-x86_64 . 2>&1 | tee ./" ++ log

/-- `IMAGE = settings.image.replace(" ", "_")` (hypervisors.py line 31). -/
def imageTag (image : String) : String := pyReplace image " " "_"

/-- `build_log = f'{IMAGE}_{self.arch}_build_{DT_SUFFIX}.log'`. -/
def buildLogName (image arch dtSuffix : String) : String :=
  imageTag image ++ "_" ++ arch ++ "_build_" ++ dtSuffix ++ ".log"

/-- `build_log_2 = f'{IMAGE}_{self.arch}_build_{DT_SUFFIX}_2.log'`. -/
def buildLog2Name (image arch dtSuffix : String) : String :=
  imageTag image ++ "_" ++ arch ++ "_build_" ++ dtSuffix ++ "_2.log"

/-- `timestamp_name = f'{self.build_number}-{IMAGE}-{self.name}-{self.arch}-{TIMESTAMP}'`
(hypervisors.py line 278). -/
def timestampName (s : Settings) (cfg : HvConfig) (image : String) : String :=
  s.buildNumber ++ "-" ++ imageTag image ++ "-" ++ cfg.name ++ "-" ++ cfg.arch ++ "-" ++ s.timestamp

/-- The `packer init ./cloud-images 2>&1` command of `build_stage`. -/
def packerInitCmd : String := "packer init ./cloud-images 2>&1"

/-- The qcow output glob uploaded after a GenericCloud/OpenNebula
build (hypervisors.py lines 352–358). -/
def outputFile (image osMajorVer arch : String) : String :=
  if image = "GenericCloud" then
    "output-almalinux-" ++ osMajorVer ++ "-gencloud-" ++ arch ++ "/*.qcow2"
  else if image = "OpenNebula" then
    "output-almalinux-" ++ osMajorVer ++ "-opennebula-" ++ arch ++ "/*.qcow2"
  else "*.box"

/-- The UEFI-variant qcow output glob (`file2`, hypervisors.py line 354). -/
def outputFile2 (osMajorVer arch : String) : String :=
  "output-almalinux-" ++ osMajorVer ++ "-gencloud-uefi-" ++ arch ++ "/*.qcow2"

/-- `BaseHypervisor.build_stage` (hypervisors.py lines 315–368),
faithful to its control flow: connect; `packer init` outside the `try`
(its failure propagates with nothing else run); select the packer
command by image kind and OS major version; in the `try` body run the
build, fetch its log, and for GenericCloud on major version 8 run the
second (UEFI) pass and fetch its log; in the `finally` block upload
the logs and output files (the second pass's artifacts only for
GenericCloud on 8); and only when no exception is propagating run
`ssh.close()`.  `sftp_download` (from `lib/utils.py`, outside the
given sources) is recorded as an event and modelled as infallible; no
claim depends on its failure.  An exception raised inside `finally`
(by the upload batch) replaces the body's exception, as in Python. -/
def build_stage (cfg : HvConfig) (s : Settings) (image osMajorVer : String)
    (exec : String → Except ExecuteError String) : List Ev × Except Err Unit :=
  let build_log := buildLogName image cfg.arch s.dtSuffix
  let build_log_2 := buildLog2Name image cfg.arch s.dtSuffix
  let initTrace := [Ev.connect, Ev.execute packerInitCmd]
  match exec packerInitCmd with
  | .error e => (initTrace, .error (.executeError e))
  | .ok _ =>
    let cmd :=
      if image = "GenericCloud" then cfg.packer_build_gencloud osMajorVer build_log
      else if image = "OpenNebula" then
        if osMajorVer = "8" then cfg.packer_build_opennebula osMajorVer build_log
        else cfg.packer_build_opennebula2 osMajorVer build_log
      else cfg.packer_build_cmd osMajorVer build_log
    let cmd2 :=
      if image = "GenericCloud" then cfg.packer_build_gencloud2 osMajorVer build_log_2
      else ""
    let body : List Ev × Except Err Unit :=
      match exec cmd with
      | .error e => ([Ev.execute cmd], .error (.executeError e))
      | .ok _ =>
        if image = "GenericCloud" ∧ osMajorVer = "8" then
          match exec cmd2 with
          | .error e =>
            ([Ev.execute cmd, Ev.sftpDownload build_log, Ev.execute cmd2], .error (.executeError e))
          | .ok _ =>
            ([Ev.execute cmd, Ev.sftpDownload build_log, Ev.execute cmd2,
              Ev.sftpDownload build_log_2], .ok ())
        else ([Ev.execute cmd, Ev.sftpDownload build_log], .ok ())
    let files := [build_log, outputFile image osMajorVer cfg.arch] ++
      (if image = "GenericCloud" ∧ osMajorVer = "8" then
        [build_log_2, outputFile2 osMajorVer cfg.arch]
      else [])
    let up := upload_to_bucket exec cfg.cloud_images_path (timestampName s cfg image)
      s.bucket files
    let trace := initTrace ++ body.1 ++ [Ev.uploadBatch files] ++ up.1
    match up.2 with
    | .error e => (trace, .error e)
    | .ok _ =>
      match body.2 with
      | .error e => (trace, .error e)
      | .ok _ => (trace ++ [Ev.close], .ok ())

/-! ### BackendRegistry and dispatch (hypervisors.py 1346–1368, main.py 140–189) -/

/-- The hypervisor classes registered in `get_hypervisor`'s table. -/
inductive HypervisorClass where
  | hyperv
  | virtualbox
  | kvm
  | vmware_desktop
  | awsStage2
  | equinix
deriving DecidableEq, Repr

/-- `get_hypervisor` (hypervisors.py lines 1346–1368): the static
table from identifier string to hypervisor class.  Python indexes a
dict literal, so an unregistered name raises `KeyError` before any
class is instantiated; `none` models that failure (the design calls it
`ConfigurationError`). -/
def get_hypervisor (hypervisorName : String) : Option HypervisorClass :=
  if hypervisorName = "hyperv" then some .hyperv
  else if hypervisorName = "virtualbox" then some .virtualbox
  else if hypervisorName = "kvm" then some .kvm
  else if hypervisorName = "vmware_desktop" then some .vmware_desktop
  else if hypervisorName = "aws-stage-2" then some .awsStage2
  else if hypervisorName = "equinix" then some .equinix
  else none

/-- The stages of the design (§4.1); the extra CLI stage `pullrequest`
never resolves a hypervisor in `main` and is outside this model. -/
inductive Stage where
  | init
  | build
  | test
  | release
  | destroy
deriving DecidableEq, Repr

/-- Failure of a dispatch call: the registry lookup failed (Python's
`KeyError` on the dict literal, the design's `ConfigurationError`), or
the stage handler itself failed. -/
inductive DispatchError where
  | configurationError
  | stageFailure (e : Err)
deriving DecidableEq, Repr

/-- `main`'s dispatch (main.py lines 150–189) for the five design
stages: lower-case the `--hypervisor` argument, resolve it through
`get_hypervisor`, and only then run the stage handler on the resolved
class.  `runStage` stands for the per-stage handler bodies (whose
build-stage case is embedded separately as `build_stage`) and returns
the remote events it performed; on a failed lookup the handler is
never invoked, so the event list is empty. -/
def dispatch (runStage : HypervisorClass → Stage → List Ev × Except Err Unit)
    (stage : Stage) (hypervisorName : String) : List Ev × Except DispatchError Unit :=
  match get_hypervisor (pyLower hypervisorName) with
  | none => ([], .error .configurationError)
  | some h =>
    let (t, r) := runStage h stage
    (t, match r with
        | .ok _ => .ok ()
        | .error e => .error (.stageFailure e))

example : removeEpoch "2:1.2.3-1" = "1.2.3-1" := by decide

example : findCves "fix CVE-2023-0001 and CVE-2022-9999 again CVE-2023-0001" =
    ["CVE-2023-0001", "CVE-2022-9999", "CVE-2023-0001"] := by decide

/-! ### C2: unregistered hypervisor fails before any side effect -/

/-- C2: for every stage, dispatching with a hypervisor identifier whose
lower-cased form is not in `get_hypervisor`'s table fails with the
configuration error (Python's `KeyError` on the registry dict), and
the stage handler is never invoked, so the observed remote-event list
is empty — zero invocations on the remote layer. -/
theorem dispatch_unregistered_fails_without_side_effects
    (runStage : HypervisorClass → Stage → List Ev × Except Err Unit)
    (stage : Stage) (hypervisorName : String)
    (h : get_hypervisor (pyLower hypervisorName) = none) :
    dispatch runStage stage hypervisorName = ([], .error .configurationError) := by
  simp [dispatch, h]

/-- Witness for C2 at the unregistered identifier `"Xen"` and a spy
handler that would record a connection if it were ever invoked. -/
theorem dispatch_unregistered_fails_without_side_effects_witness :
    dispatch (fun _ _ => ([Ev.connect], .ok ())) Stage.build "Xen" =
      ([], .error .configurationError) :=
  dispatch_unregistered_fails_without_side_effects
    (fun _ _ => ([Ev.connect], .ok ())) Stage.build "Xen" (by decide)

/-! ### C3 and C10: the `download_qcow` retry loop -/

/-- C3 counterexample: with attempt 0 succeeding and all later attempts
failing, the loop still reaches the fifth failure and invokes the bulk
`aws s3 sync` fallback — a successful attempt does not prevent the
fallback, contradicting the claim that the fallback is never invoked
when any of the five attempts succeeds.  The object is also downloaded
all five times. -/
theorem download_fallback_despite_success :
    (fun i => decide (i = 0)) 0 = true ∧
    DlEvent.fallbackSync ∈ (download_qcow (fun i => decide (i = 0)) true).1 ∧
    (download_qcow (fun i => decide (i = 0)) true).1.count DlEvent.fallbackSync = 1 ∧
    (download_qcow (fun i => decide (i = 0)) true).1.count DlEvent.download = 5 := by
  decide

/-- C3 (amended): the loop always runs all five attempts; the fallback
is invoked exactly once if and only if the fifth attempt fails
(regardless of earlier outcomes), and never per-attempt; the run ends
in the fatal transfer error exactly when the fifth attempt fails and
the fallback also fails. -/
theorem download_fallback_iff_fifth_attempt_fails (att : Nat → Bool) (fallbackOk : Bool) :
    ((download_qcow att fallbackOk).1.count DlEvent.fallbackSync =
      if att 4 then 0 else 1) ∧
    ((download_qcow att fallbackOk).2 = .error .syncFailed ↔
      att 4 = false ∧ fallbackOk = false) := by
  cases h0 : att 0 <;> cases h1 : att 1 <;> cases h2 : att 2 <;> cases h3 : att 3 <;>
    cases h4 : att 4 <;> cases fallbackOk <;>
      simp [download_qcow, dlGo, h0, h1, h2, h3, h4]

/-- One iteration's events in closed form: the download, then on
failure the 60-second sleep, then (only at index 4) the fallback. -/
def dlSeg (att : Nat → Bool) (i : Nat) : List DlEvent :=
  DlEvent.download ::
    (if att i then [] else
      DlEvent.sleep60 :: (if i = 4 then [DlEvent.fallbackSync] else []))

/-- C10: a success never breaks the loop — the trace is exactly the
five per-index segments in order, so the object is downloaded on every
one of the five iterations, and every failed attempt (the fifth
included) sleeps 60 seconds immediately after the failed download and
before the next event. -/
theorem download_loop_never_breaks (att : Nat → Bool) (fallbackOk : Bool) :
    (download_qcow att fallbackOk).1 =
      dlSeg att 0 ++ dlSeg att 1 ++ dlSeg att 2 ++ dlSeg att 3 ++ dlSeg att 4 ∧
    (download_qcow att fallbackOk).1.count DlEvent.download = 5 := by
  cases h0 : att 0 <;> cases h1 : att 1 <;> cases h2 : att 2 <;> cases h3 : att 3 <;>
    cases h4 : att 4 <;> cases fallbackOk <;>
      simp [download_qcow, dlGo, dlSeg, h0, h1, h2, h3, h4]

/-! ### C5: `build_stage` does not close the session on failure -/

/-- Concrete rollout of C5's failing input: every remote command
succeeds (checksum outputs start with a token) except the GenericCloud
packer build itself, which exits non-zero. -/
def gc9FailingExec : String → Except ExecuteError String := fun c =>
  if c = kvmConfig.packer_build_gencloud "9" (buildLogName "GenericCloud" "x86_64" "20211028_120000")
  then .error ⟨1, "packer build failed"⟩
  else .ok "deadbeef ok"

/-- The concrete per-run constants used by the closed evaluations. -/
def exampleSettings : Settings where
  buildNumber := "210"
  timestamp := "20211028"
  dtSuffix := "20211028_120000"
  bucket := "alcib"

set_option maxRecDepth 40000 in
/-- C5: evaluating `build_stage` at the failing input where the packer
build command raises `ExecuteError` and everything else succeeds: the
`finally` block still uploads the artifacts (the build log and the
output glob) on the still-open session, but the exception then
propagates past `ssh.close()`, so the session is never closed on this
exit path, and the stage ends with the build command's error. -/
theorem build_stage_failure_skips_session_close :
    Ev.uploadBatch [buildLogName "GenericCloud" "x86_64" "20211028_120000",
        outputFile "GenericCloud" "9" "x86_64"] ∈
      (build_stage kvmConfig exampleSettings "GenericCloud" "9" gc9FailingExec).1 ∧
    Ev.close ∉ (build_stage kvmConfig exampleSettings "GenericCloud" "9" gc9FailingExec).1 ∧
    (build_stage kvmConfig exampleSettings "GenericCloud" "9" gc9FailingExec).2 =
      .error (.executeError ⟨1, "packer build failed"⟩) := by
  decide

set_option maxRecDepth 8192 in
example :
    collectCves ⟨"pkg", "2.0", "1", "1"⟩
      (pySplitOn "\n\n"
        "* Fri Mar 03 2023 A <a@b.c> - 3.0-1\n- new\n\n* Thu Feb 02 2023 A <a@b.c> - 2.0-1\n- CVE-2023-0001\n\n* Wed Jan 01 2022 A <a@b.c> - 1.0-1\n- CVE-2022-9999") =
    [] := by decide

/-! ### C4 and C9: the checksum-upload batch -/

/-- Only files whose remote checksum command succeeded ever reach the
upload command: an `uploadAttempt` event for `f` implies the checksum
oracle answered `ok` for `f`. -/
theorem uploadAttempt_mem_checksum_ok
    (exec : String → Except ExecuteError String) (filePath timestampName bucket : String)
    (files : List String) (f chk : String)
    (h : Ev.uploadAttempt f chk ∈ (upload_to_bucket exec filePath timestampName bucket files).1) :
    ∃ out, exec (checksumCmd filePath f) = .ok out := by
  induction files with
  | nil => simp [upload_to_bucket] at h
  | cons g rest ih =>
    rcases hc : exec (checksumCmd filePath g) with e | out
    · rw [upload_to_bucket] at h
      simp only [hc, List.mem_cons] at h
      rcases h with h | h
      · exact absurd h (by simp)
      · exact ih h
    · rcases ht : pyFirstToken out with - | chk'
      · rw [upload_to_bucket] at h
        simp only [hc, ht, List.mem_cons, List.not_mem_nil, or_false] at h
        exact absurd h (by simp)
      · rcases hu : exec (uploadCmd filePath g bucket timestampName chk') with e' | o'
        · rw [upload_to_bucket] at h
          simp only [hc, ht, hu, List.mem_cons, List.not_mem_nil, or_false] at h
          rcases h with h | h
          · exact absurd h (by simp)
          · obtain ⟨rfl, -⟩ := Ev.uploadAttempt.inj h
            exact ⟨out, hc⟩
        · rw [upload_to_bucket] at h
          simp only [hc, ht, hu, List.mem_cons] at h
          rcases h with h | h | h
          · exact absurd h (by simp)
          · obtain ⟨rfl, -⟩ := Ev.uploadAttempt.inj h
            exact ⟨out, hc⟩
          · exact ih h

/-- C4: in a batch where every upload command that actually runs
succeeds and every successful checksum output carries a token, the
batch completes without error, the remote checksum is attempted for
every file of the batch (no file aborts its siblings), and any file
whose checksum command failed with `ExecuteError` is skipped: no
upload is ever attempted for it. -/
theorem upload_checksum_failure_skips_file
    (exec : String → Except ExecuteError String) (filePath timestampName bucket : String)
    (files : List String)
    (htok : ∀ f ∈ files, ∀ out, exec (checksumCmd filePath f) = .ok out →
      (pyFirstToken out).isSome = true)
    (hup : ∀ f ∈ files, ∀ out chk, exec (checksumCmd filePath f) = .ok out →
      pyFirstToken out = some chk →
      ∃ o, exec (uploadCmd filePath f bucket timestampName chk) = .ok o) :
    (upload_to_bucket exec filePath timestampName bucket files).2 = .ok () ∧
    (∀ f ∈ files,
      Ev.checksumAttempt f ∈ (upload_to_bucket exec filePath timestampName bucket files).1) ∧
    (∀ f ∈ files, ∀ e, exec (checksumCmd filePath f) = .error e →
      ∀ chk,
        Ev.uploadAttempt f chk ∉ (upload_to_bucket exec filePath timestampName bucket files).1) := by
  refine ⟨?_, ?_, ?_⟩
  case refine_3 =>
    intro f _ e he chk hmem
    obtain ⟨out, ho⟩ := uploadAttempt_mem_checksum_ok exec filePath timestampName bucket
      files f chk hmem
    rw [he] at ho
    exact Except.noConfusion ho
  all_goals (
    revert htok hup
    induction files with
    | nil => intro htok hup; simp [upload_to_bucket]
    | cons g rest ih =>
      intro htok hup
      have ihr := ih (fun f hf => htok f (List.mem_cons_of_mem g hf))
        (fun f hf => hup f (List.mem_cons_of_mem g hf))
      rcases hc : exec (checksumCmd filePath g) with e | out
      · rw [upload_to_bucket]
        simp only [hc]
        first
        | exact ihr
        | (intro f hf
           rcases List.mem_cons.mp hf with rfl | hf
           · simp
           · simp only [List.mem_cons]
             exact Or.inr (ihr f hf))
      · have hsome := htok g (List.mem_cons_self g rest) out hc
        obtain ⟨chk, htk⟩ := Option.isSome_iff_exists.mp hsome
        obtain ⟨o, ho⟩ := hup g (List.mem_cons_self g rest) out chk hc htk
        rw [upload_to_bucket]
        simp only [hc, htk, ho]
        first
        | exact ihr
        | (intro f hf
           rcases List.mem_cons.mp hf with rfl | hf
           · simp
           · simp only [List.mem_cons]
             exact Or.inr (Or.inr (ihr f hf))))

/-- The concrete remote host of C4's witness: the checksum command for
the absent file `"bad"` exits non-zero, every other command prints
`"abc resp"`. -/
def c4Oracle : String → Except ExecuteError String := fun c =>
  if c = checksumCmd "d" "bad" then .error ⟨1, "missing"⟩ else .ok "abc resp"

/-- Witness instance for C4: a two-file batch where the first file's
remote checksum command fails (the file is absent) and every other
command succeeds. -/
theorem upload_checksum_failure_skips_file_witness :
    (upload_to_bucket c4Oracle "d" "t" "b" ["bad", "good"]).2 = .ok () ∧
    (∀ f ∈ ["bad", "good"],
      Ev.checksumAttempt f ∈ (upload_to_bucket c4Oracle "d" "t" "b" ["bad", "good"]).1) ∧
    (∀ f ∈ ["bad", "good"], ∀ e, c4Oracle (checksumCmd "d" f) = .error e →
      ∀ chk,
        Ev.uploadAttempt f chk ∉ (upload_to_bucket c4Oracle "d" "t" "b" ["bad", "good"]).1) := by
  refine upload_checksum_failure_skips_file c4Oracle "d" "t" "b" ["bad", "good"] ?_ ?_
  · intro f hf out hout
    rcases List.mem_cons.mp hf with rfl | hf
    · rw [show c4Oracle (checksumCmd "d" "bad") = .error ⟨1, "missing"⟩ from by decide] at hout
      exact Except.noConfusion hout
    · simp only [List.mem_cons, List.not_mem_nil, or_false] at hf
      subst hf
      rw [show c4Oracle (checksumCmd "d" "good") = .ok "abc resp" from by decide] at hout
      obtain rfl := Except.ok.inj hout
      decide
  · intro f hf out chk hout htk
    rcases List.mem_cons.mp hf with rfl | hf
    · rw [show c4Oracle (checksumCmd "d" "bad") = .error ⟨1, "missing"⟩ from by decide] at hout
      exact Except.noConfusion hout
    · simp only [List.mem_cons, List.not_mem_nil, or_false] at hf
      subst hf
      rw [show c4Oracle (checksumCmd "d" "good") = .ok "abc resp" from by decide] at hout
      obtain rfl := Except.ok.inj hout
      rw [show pyFirstToken "abc resp" = some "abc" from by decide] at htk
      obtain rfl := Option.some.inj htk
      exact ⟨"abc resp", by decide⟩

/-- A file neither aborts nor errors the batch: its checksum command
either raises `ExecuteError` (the file is skipped) or succeeds with a
token whose upload command then also succeeds. -/
def fileContinues (exec : String → Except ExecuteError String)
    (filePath timestampName bucket file : String) : Prop :=
  (∃ e, exec (checksumCmd filePath file) = .error e) ∨
  (∃ out chk o, exec (checksumCmd filePath file) = .ok out ∧ pyFirstToken out = some chk ∧
    exec (uploadCmd filePath file bucket timestampName chk) = .ok o)

/-- C9: only a checksum `ExecuteError` is skipped; a failure of the
upload command propagates at once.  If every file before `f` continues
and `f`'s checksum succeeds but its upload raises `ExecuteError e`,
the batch stops with exactly the prefix's events plus `f`'s two
attempts and the error; the files after `f` contribute nothing. -/
theorem upload_error_aborts_batch
    (exec : String → Except ExecuteError String) (filePath timestampName bucket : String)
    (pre post : List String) (f out chk : String) (e : ExecuteError)
    (hpre : ∀ g ∈ pre, fileContinues exec filePath timestampName bucket g)
    (hcs : exec (checksumCmd filePath f) = .ok out)
    (htk : pyFirstToken out = some chk)
    (hup : exec (uploadCmd filePath f bucket timestampName chk) = .error e) :
    upload_to_bucket exec filePath timestampName bucket (pre ++ f :: post) =
      ((upload_to_bucket exec filePath timestampName bucket pre).1 ++
        [Ev.checksumAttempt f, Ev.uploadAttempt f chk], .error (.executeError e)) := by
  induction pre with
  | nil =>
    rw [List.nil_append, upload_to_bucket]
    simp [upload_to_bucket, hcs, htk, hup]
  | cons g rest ih =>
    have hrest : ∀ g' ∈ rest, fileContinues exec filePath timestampName bucket g' :=
      fun g' hg' => hpre g' (List.mem_cons_of_mem g hg')
    have heq := ih hrest
    rcases hpre g (List.mem_cons_self g rest) with ⟨e', he'⟩ | ⟨out', chk', o', hcs', htk', hup'⟩
    · rw [List.cons_append]
      simp only [upload_to_bucket, he', heq, List.cons_append]
    · rw [List.cons_append]
      simp only [upload_to_bucket, hcs', htk', hup', heq, List.cons_append]

/-- The concrete remote host of C9's witness: the upload command for
`"bad"` is refused, every other command prints `"abc resp"`. -/
def c9Oracle : String → Except ExecuteError String := fun c =>
  if c = uploadCmd "d" "bad" "b" "t" "abc" then .error ⟨1, "denied"⟩ else .ok "abc resp"

/-- Witness instance for C9: the batch `["fine", "bad", "never"]`
where `"fine"` uploads, `"bad"`'s upload command is refused, and
`"never"` comes after the failure. -/
theorem upload_error_aborts_batch_witness :
    upload_to_bucket c9Oracle "d" "t" "b" (["fine"] ++ "bad" :: ["never"]) =
      ((upload_to_bucket c9Oracle "d" "t" "b" ["fine"]).1 ++
        [Ev.checksumAttempt "bad", Ev.uploadAttempt "bad" "abc"],
        .error (.executeError ⟨1, "denied"⟩)) := by
  refine upload_error_aborts_batch c9Oracle "d" "t" "b" ["fine"] ["never"] "bad" "abc resp"
    "abc" ⟨1, "denied"⟩ ?_ ?_ ?_ ?_
  · intro g hg
    simp only [List.mem_cons, List.not_mem_nil, or_false] at hg
    subst hg
    exact Or.inr ⟨"abc resp", "abc", "abc resp", by decide, by decide, by decide⟩
  · decide
  · decide
  · decide

/-! ### C1 and C6: the changelog scan and the report entry -/

/-- Closed form of the scan loop: the collected CVE identifiers are the
per-chunk matches of exactly the chunks before the first matching one
(after stripping, with empty chunks dropped), concatenated in order.
In particular, when no chunk matches, every chunk is consumed. -/
theorem collectCves_eq_scan (removed : Package) (chunks : List String) :
    collectCves removed chunks =
      ((((chunks.map pyStrip).filter fun c => c != "").takeWhile
          fun c => !stopsAt removed c).map fun c => findCves (chunkBody c)).join := by
  induction chunks with
  | nil => rfl
  | cons chunk rest ih =>
    rw [collectCves]
    by_cases hc : pyStrip chunk = ""
    · simp [hc, ih]
    · by_cases hstop : stopsAt removed (pyStrip chunk) = true
      · have hA := hstop
        simp only [stopsAt, Bool.or_eq_true, beq_iff_eq] at hA
        have hrhs :
            (((((chunk :: rest).map pyStrip).filter fun c => c != "").takeWhile
              fun c => !stopsAt removed c).map fun c => findCves (chunkBody c)).join =
              ([] : List String) := by
          simp [List.filter_cons, hc, hstop]
        rw [hrhs]
        rw [if_neg hc]
        dsimp only
        split_ifs with h1 h2 h3
        · rfl
        · rfl
        · rfl
        · exact absurd hA (by rcases hA with (h | h) | h <;> simp_all)
      · have hA := hstop
        simp only [stopsAt, Bool.or_eq_true, beq_iff_eq, not_or] at hA
        obtain ⟨⟨h1, h2⟩, h3⟩ := hA
        simp [List.filter_cons, hc, hstop, h1, h2, h3, ih]

/-- C1: for every removed package and chunk list, the changelog walk
accumulates the CVE matches of each (stripped, non-empty) chunk's body
from newest to oldest and stops before including the first chunk whose
declared version — normalized by stripping a leading epoch prefix of
digits followed by a colon — equals the removed version under
`version-clean_release`, `version-release`, or the bare `version`;
when no chunk matches, all chunks are consumed and the walk still
returns normally. -/
theorem changelog_scan_stops_before_first_match (removed : Package) (chunks : List String) :
    collectCves removed chunks =
      ((((chunks.map pyStrip).filter fun c => c != "").takeWhile
          fun c => !stopsAt removed c).map fun c => findCves (chunkBody c)).join :=
  collectCves_eq_scan removed chunks

/-- C6 counterexample: the emitted header line is not the bare
`"<name> upgraded from <v>-<r> to <v>-<r>"` of the claim — the source
prefixes it with the bullet `"- "` (hypervisors.py line 695). -/
theorem report_line_differs_from_claimed_format :
    pairHeader ⟨"pkgA", "2.0", "2", "2"⟩ ⟨"pkgA", "1.0", "1", "1"⟩ "" =
      "- pkgA upgraded from 1.0-1 to 2.0-2" ∧
    "- pkgA upgraded from 1.0-1 to 2.0-2" ≠ "pkgA upgraded from 1.0-1 to 2.0-2" := by
  decide

/-- C6 (amended): every report entry is the bullet line
`"- <name> upgraded from <removedVersion>-<removedRelease> to
<addedVersion>-<addedRelease>"` — whose from/to substrings are exactly
the removed/added `version-release` fields — followed by the indented
line `"  Fixes: <comma-joined CVE list>"` exactly when the CVE list is
non-empty; and that list consists of the `CVE-<digits>-<digits>`
matches of the collected chunk bodies, in order of occurrence, not
deduplicated. -/
theorem report_entry_structure (added removed : Package) (changelog : String) :
    pairHeader added removed changelog =
      "- " ++ added.name ++ " upgraded from " ++ removed.version ++ "-" ++ removed.release ++
        " to " ++ added.version ++ "-" ++ added.release ++
        (if collectCves removed (pySplitOn "\n\n" changelog) = [] then ""
         else "\n  Fixes: " ++
           String.intercalate ", " (collectCves removed (pySplitOn "\n\n" changelog))) ∧
    collectCves removed (pySplitOn "\n\n" changelog) =
      (((((pySplitOn "\n\n" changelog).map pyStrip).filter fun c => c != "").takeWhile
          fun c => !stopsAt removed c).map fun c => findCves (chunkBody c)).join := by
  constructor
  · rw [pairHeader]
    by_cases h : collectCves removed (pySplitOn "\n\n" changelog) = []
    · simp [h, String.append_empty]
    · simp [h, String.append_assoc]
  · exact collectCves_eq_scan removed (pySplitOn "\n\n" changelog)

/-! ### C7: pure additions/removals yield no report line -/

theorem firstOccsGo_congr (l : List String) :
    ∀ s1 s2, (∀ x, x ∈ s1 ↔ x ∈ s2) → firstOccsGo s1 l = firstOccsGo s2 l := by
  induction l with
  | nil => intro s1 s2 _; rfl
  | cons a l ih =>
    intro s1 s2 h
    rw [firstOccsGo, firstOccsGo]
    by_cases ha : a ∈ s1
    · rw [if_pos ha, if_pos ((h a).mp ha)]
      exact ih s1 s2 h
    · rw [if_neg ha, if_neg fun hb => ha ((h a).mpr hb)]
      have := ih (a :: s1) (a :: s2) fun x => by simp [h x]
      rw [this]

theorem mem_of_mem_firstOccsGo (x : String) (l : List String) :
    ∀ seen, x ∈ firstOccsGo seen l → x ∈ l := by
  induction l with
  | nil => intro seen h; exact absurd h (by simp [firstOccsGo])
  | cons a l ih =>
    intro seen h
    rw [firstOccsGo] at h
    by_cases ha : a ∈ seen
    · rw [if_pos ha] at h
      exact List.mem_cons_of_mem a (ih seen h)
    · rw [if_neg ha] at h
      rcases List.mem_cons.mp h with rfl | h
      · exact List.mem_cons_self x l
      · exact List.mem_cons_of_mem a (ih (a :: seen) h)

theorem firstOccsGo_seen_filter (n : String) (l : List String) :
    ∀ seen, firstOccsGo (n :: seen) l = firstOccsGo seen (l.filter fun x => x != n) := by
  induction l with
  | nil => intro seen; rfl
  | cons a l ih =>
    intro seen
    by_cases han : a = n
    · subst han
      rw [firstOccsGo, if_pos (List.mem_cons_self a seen), List.filter_cons]
      simp only [bne_self_eq_false, Bool.false_eq_true, if_false]
      exact ih seen
    · have hbne : (a != n) = true := by simp [han]
      by_cases ha : a ∈ seen
      · rw [firstOccsGo, if_pos (List.mem_cons_of_mem n ha), List.filter_cons, if_pos hbne,
          firstOccsGo, if_pos ha]
        exact ih seen
      · have hmem : a ∉ n :: seen := by
          intro hx
          rcases List.mem_cons.mp hx with h | h
          · exact han h
          · exact ha h
        rw [firstOccsGo, if_neg hmem, List.filter_cons, if_pos hbne, firstOccsGo, if_neg ha]
        rw [← ih (a :: seen)]
        congr 1
        exact firstOccsGo_congr l (a :: n :: seen) (n :: a :: seen) fun x => by
          simp
          tauto

theorem firstOccsGo_filter_comm (n : String) (l : List String) :
    ∀ seen, firstOccsGo seen (l.filter fun x => x != n) =
      (firstOccsGo seen l).filter fun x => x != n := by
  induction l with
  | nil => intro seen; rfl
  | cons a l ih =>
    intro seen
    by_cases han : a = n
    · subst han
      rw [List.filter_cons]
      simp only [bne_self_eq_false, Bool.false_eq_true, if_false]
      by_cases ha : a ∈ seen
      · rw [show firstOccsGo seen (a :: l) = firstOccsGo seen l from by
          rw [firstOccsGo, if_pos ha]]
        exact ih seen
      · rw [show firstOccsGo seen (a :: l) = a :: firstOccsGo (a :: seen) l from by
          rw [firstOccsGo, if_neg ha]]
        rw [List.filter_cons]
        simp only [bne_self_eq_false, Bool.false_eq_true, if_false]
        rw [firstOccsGo_seen_filter a l seen]
        have hself : ((firstOccsGo seen (l.filter fun x => x != a)).filter fun x => x != a) =
            firstOccsGo seen (l.filter fun x => x != a) :=
          List.filter_eq_self.mpr fun x hx =>
            (List.mem_filter.mp (mem_of_mem_firstOccsGo x _ seen hx)).2
        rw [hself]
    · have hbne : (a != n) = true := by simp [han]
      by_cases ha : a ∈ seen
      · rw [List.filter_cons, if_pos hbne,
          show firstOccsGo seen (a :: l.filter fun x => x != n) =
            firstOccsGo seen (l.filter fun x => x != n) from by rw [firstOccsGo, if_pos ha],
          show firstOccsGo seen (a :: l) = firstOccsGo seen l from by
            rw [firstOccsGo, if_pos ha]]
        exact ih seen
      · rw [List.filter_cons, if_pos hbne,
          show firstOccsGo seen (a :: l.filter fun x => x != n) =
            a :: firstOccsGo (a :: seen) (l.filter fun x => x != n) from by
            rw [firstOccsGo, if_neg ha],
          show firstOccsGo seen (a :: l) = a :: firstOccsGo (a :: seen) l from by
            rw [firstOccsGo, if_neg ha]]
        rw [List.filter_cons, if_pos hbne, ih (a :: seen)]

theorem map_name_filter (entries : List (Char × Package)) (n : String) :
    ((entries.filter fun e => e.2.name != n).map fun e => e.2.name) =
      (entries.map fun e => e.2.name).filter fun x => x != n := by
  induction entries with
  | nil => rfl
  | cons e es ih =>
    cases h : (e.2.name != n) <;>
      simp [List.filter_cons, List.map_cons, h, ih]

theorem groupLine_filter_ne (chlog : String → String) (entries : List (Char × Package))
    (n m : String) (hm : m ≠ n) :
    groupLine chlog (entries.filter fun e => e.2.name != n) m = groupLine chlog entries m := by
  have hfil : ((entries.filter fun e => e.2.name != n).filter fun e => e.2.name == m) =
      entries.filter fun e => e.2.name == m := by
    induction entries with
    | nil => rfl
    | cons e es ih =>
      by_cases h2 : e.2.name = m
      · have h1 : (e.2.name != n) = true := by simp [h2, hm]
        have h2b : (e.2.name == m) = true := by simp [h2]
        rw [List.filter_cons, if_pos h1, List.filter_cons, if_pos h2b, List.filter_cons,
          if_pos h2b, ih]
      · have h2b : (e.2.name == m) = false := by simp [h2]
        cases h1 : (e.2.name != n) <;> simp [List.filter_cons, h1, h2b, ih]
  simp only [groupLine, hfil]

theorem filterMap_drop_none (f g : String → Option String) (n : String)
    (hn : f n = none) (hcong : ∀ m, m ≠ n → g m = f m) (names : List String) :
    names.filterMap f = (names.filter fun x => x != n).filterMap g := by
  induction names with
  | nil => rfl
  | cons a names ih =>
    by_cases ha : a = n
    · subst ha
      rw [List.filterMap_cons, hn, List.filter_cons]
      simp only [bne_self_eq_false, Bool.false_eq_true, if_false]
      exact ih
    · have hbne : (a != n) = true := by simp [ha]
      rw [List.filterMap_cons, List.filter_cons, if_pos hbne, List.filterMap_cons,
        hcong a ha]
      cases f a <;> simp [ih]

/-- C7: a package name that occurs only on `'+'` lines or only on `'-'`
lines produces no report line: its group yields `none`, and deleting
all of its diff entries leaves the generated report unchanged. -/
theorem pure_sign_entries_produce_no_report_line
    (chlog : String → String) (entries : List (Char × Package)) (n : String)
    (h : (∀ e ∈ entries, e.2.name = n → e.1 ≠ '-') ∨
      (∀ e ∈ entries, e.2.name = n → e.1 ≠ '+')) :
    groupLine chlog entries n = none ∧
    buildReport chlog entries = buildReport chlog (entries.filter fun e => e.2.name != n) := by
  have hnone : groupLine chlog entries n = none := by
    rcases h with h | h
    · have hfil : ((entries.filter fun e => e.2.name == n).filter fun e => e.1 == '-') = [] := by
        rw [List.filter_eq_nil_iff]
        intro e he
        have hmem := List.mem_filter.mp he
        have hname : e.2.name = n := by simpa using hmem.2
        simp [h e hmem.1 hname]
      have hlast : lastWithSign '-' (entries.filter fun e => e.2.name == n) = none := by
        rw [lastWithSign, hfil]
        rfl
      simp only [groupLine, hlast]
      cases lastWithSign '+' (entries.filter fun e => e.2.name == n) <;> rfl
    · have hfil : ((entries.filter fun e => e.2.name == n).filter fun e => e.1 == '+') = [] := by
        rw [List.filter_eq_nil_iff]
        intro e he
        have hmem := List.mem_filter.mp he
        have hname : e.2.name = n := by simpa using hmem.2
        simp [h e hmem.1 hname]
      have hlast : lastWithSign '+' (entries.filter fun e => e.2.name == n) = none := by
        rw [lastWithSign, hfil]
        rfl
      simp only [groupLine, hlast]
  refine ⟨hnone, ?_⟩
  rw [buildReport, buildReport, map_name_filter, firstOccs, firstOccs,
    firstOccsGo_filter_comm n _ []]
  exact filterMap_drop_none (groupLine chlog entries)
    (groupLine chlog (entries.filter fun e => e.2.name != n)) n hnone
    (fun m hm => groupLine_filter_ne chlog entries n m hm)
    (firstOccsGo [] (entries.map fun e => e.2.name))

/-- The concrete diff of C7's witness: `"solo"` appears only as an
addition, `"dual"` as a genuine upgrade pair. -/
def c7Entries : List (Char × Package) :=
  [('+', ⟨"solo", "1.0", "1", "1"⟩), ('+', ⟨"dual", "2.0", "2", "2"⟩),
    ('-', ⟨"dual", "1.0", "1", "1"⟩)]

/-- Witness instance for C7: the pure addition `"solo"` contributes no
group line, and removing its entries leaves the report unchanged. -/
theorem pure_sign_entries_produce_no_report_line_witness :
    groupLine (fun _ => "") c7Entries "solo" = none ∧
    buildReport (fun _ => "") c7Entries =
      buildReport (fun _ => "") (c7Entries.filter fun e => e.2.name != "solo") :=
  pure_sign_entries_produce_no_report_line (fun _ => "") c7Entries "solo"
    (Or.inl (by decide))

/-! ### C8: the GenericCloud second pass on OS major version 8 -/

/-- The upload batch only performs its two per-file remote commands:
every event it emits is a checksum attempt or an upload attempt. -/
theorem upload_events_shape (exec : String → Except ExecuteError String)
    (filePath timestampName bucket : String) (files : List String) :
    ∀ ev ∈ (upload_to_bucket exec filePath timestampName bucket files).1,
      (∃ f, ev = Ev.checksumAttempt f) ∨ ∃ f chk, ev = Ev.uploadAttempt f chk := by
  induction files with
  | nil => intro ev h; exact absurd h (by simp [upload_to_bucket])
  | cons g rest ih =>
    intro ev h
    rw [upload_to_bucket] at h
    rcases hc : exec (checksumCmd filePath g) with e | out
    · simp only [hc, List.mem_cons] at h
      rcases h with rfl | h
      · exact Or.inl ⟨g, rfl⟩
      · exact ih ev h
    · rcases ht : pyFirstToken out with - | chk
      · simp only [hc, ht, List.mem_cons, List.not_mem_nil, or_false] at h
        subst h
        exact Or.inl ⟨g, rfl⟩
      · rcases hu : exec (uploadCmd filePath g bucket timestampName chk) with e' | o'
        · simp only [hc, ht, hu, List.mem_cons, List.not_mem_nil, or_false] at h
          rcases h with rfl | rfl
          · exact Or.inl ⟨g, rfl⟩
          · exact Or.inr ⟨g, chk, rfl⟩
        · simp only [hc, ht, hu, List.mem_cons] at h
          rcases h with rfl | rfl | h
          · exact Or.inl ⟨g, rfl⟩
          · exact Or.inr ⟨g, chk, rfl⟩
          · exact ih ev h

/-- C8: on a GenericCloud build with OS major version 8 whose
`packer init` and first build pass succeed, the stage executes the
UEFI-variant command immediately after fetching the first pass's log,
and the artifact upload is given the second pass's log and output glob
as well; with OS major version 9, for any oracle, the only commands
ever executed are `packer init` and the single (non-UEFI) build
command, and every artifact upload carries exactly the first pass's
log and output glob. -/
theorem gencloud_major8_runs_second_pass
    (exec exec9 : String → Except ExecuteError String) (o1 o2 : String)
    (h1 : exec packerInitCmd = .ok o1)
    (h2 : exec (kvmConfig.packer_build_gencloud "8"
      (buildLogName "GenericCloud" "x86_64" exampleSettings.dtSuffix)) = .ok o2) :
    (∃ t, (build_stage kvmConfig exampleSettings "GenericCloud" "8" exec).1 =
      [Ev.connect, Ev.execute packerInitCmd,
        Ev.execute (kvmConfig.packer_build_gencloud "8"
          (buildLogName "GenericCloud" "x86_64" exampleSettings.dtSuffix)),
        Ev.sftpDownload (buildLogName "GenericCloud" "x86_64" exampleSettings.dtSuffix),
        Ev.execute (kvmConfig.packer_build_gencloud2 "8"
          (buildLog2Name "GenericCloud" "x86_64" exampleSettings.dtSuffix))] ++ t) ∧
    Ev.uploadBatch [buildLogName "GenericCloud" "x86_64" exampleSettings.dtSuffix,
        outputFile "GenericCloud" "8" "x86_64",
        buildLog2Name "GenericCloud" "x86_64" exampleSettings.dtSuffix,
        outputFile2 "8" "x86_64"] ∈
      (build_stage kvmConfig exampleSettings "GenericCloud" "8" exec).1 ∧
    (∀ c, Ev.execute c ∈ (build_stage kvmConfig exampleSettings "GenericCloud" "9" exec9).1 →
      c = packerInitCmd ∨
        c = kvmConfig.packer_build_gencloud "9"
          (buildLogName "GenericCloud" "x86_64" exampleSettings.dtSuffix)) ∧
    (∀ fs,
      Ev.uploadBatch fs ∈ (build_stage kvmConfig exampleSettings "GenericCloud" "9" exec9).1 →
      fs = [buildLogName "GenericCloud" "x86_64" exampleSettings.dtSuffix,
        outputFile "GenericCloud" "9" "x86_64"]) := by
  refine ⟨?_, ?_, ?_, ?_⟩
  · rw [build_stage]
    simp only [show kvmConfig.arch = "x86_64" from rfl, h1, eq_self_iff_true, if_true,
      and_self, h2]
    rcases hcmd2 : exec (kvmConfig.packer_build_gencloud2 "8"
        (buildLog2Name "GenericCloud" "x86_64" exampleSettings.dtSuffix)) with e | o
    all_goals simp only [hcmd2]
    all_goals
      rcases hup : (upload_to_bucket exec kvmConfig.cloud_images_path
          (timestampName exampleSettings kvmConfig "GenericCloud") exampleSettings.bucket
          ([buildLogName "GenericCloud" "x86_64" exampleSettings.dtSuffix,
            outputFile "GenericCloud" "8" "x86_64"] ++
            [buildLog2Name "GenericCloud" "x86_64" exampleSettings.dtSuffix,
              outputFile2 "8" "x86_64"])).2 with e' | u
    all_goals simp only [hup]
    all_goals exact ⟨_, rfl⟩
  · rw [build_stage]
    simp only [show kvmConfig.arch = "x86_64" from rfl, h1, eq_self_iff_true, if_true,
      and_self, h2]
    rcases hcmd2 : exec (kvmConfig.packer_build_gencloud2 "8"
        (buildLog2Name "GenericCloud" "x86_64" exampleSettings.dtSuffix)) with e | o
    all_goals simp only [hcmd2]
    all_goals
      rcases hup : (upload_to_bucket exec kvmConfig.cloud_images_path
          (timestampName exampleSettings kvmConfig "GenericCloud") exampleSettings.bucket
          ([buildLogName "GenericCloud" "x86_64" exampleSettings.dtSuffix,
            outputFile "GenericCloud" "8" "x86_64"] ++
            [buildLog2Name "GenericCloud" "x86_64" exampleSettings.dtSuffix,
              outputFile2 "8" "x86_64"])).2 with e' | u
    all_goals simp only [hup]
    all_goals simp
  · intro c hc
    rw [build_stage] at hc
    simp only [show kvmConfig.arch = "x86_64" from rfl, eq_self_iff_true, if_true, true_and,
      eq_false (by decide : ¬(("9" : String) = "8")), if_false, List.append_nil] at hc
    rcases hi : exec9 packerInitCmd with e | o
    · simp only [hi] at hc
      simp at hc
      exact Or.inl hc
    · simp only [hi] at hc
      rcases hcmd : exec9 (kvmConfig.packer_build_gencloud "9"
          (buildLogName "GenericCloud" "x86_64" exampleSettings.dtSuffix)) with e' | o'
      all_goals simp only [hcmd] at hc
      all_goals
        rcases hup : (upload_to_bucket exec9 kvmConfig.cloud_images_path
            (timestampName exampleSettings kvmConfig "GenericCloud") exampleSettings.bucket
            [buildLogName "GenericCloud" "x86_64" exampleSettings.dtSuffix,
              outputFile "GenericCloud" "9" "x86_64"]).2 with e'' | u
      all_goals simp only [hup] at hc
      all_goals simp at hc
      all_goals
        rcases hc with hc | hc | hc
        · exact Or.inl hc
        · exact Or.inr hc
        · rcases upload_events_shape exec9 _ _ _ _ _ hc with ⟨f, hf⟩ | ⟨f, chk, hf⟩ <;>
            exact absurd hf (by simp)
  · intro fs hm
    rw [build_stage] at hm
    simp only [show kvmConfig.arch = "x86_64" from rfl, eq_self_iff_true, if_true, true_and,
      eq_false (by decide : ¬(("9" : String) = "8")), if_false, List.append_nil] at hm
    rcases hi : exec9 packerInitCmd with e | o
    · simp only [hi] at hm
      simp at hm
    · simp only [hi] at hm
      rcases hcmd : exec9 (kvmConfig.packer_build_gencloud "9"
          (buildLogName "GenericCloud" "x86_64" exampleSettings.dtSuffix)) with e' | o'
      all_goals simp only [hcmd] at hm
      all_goals
        rcases hup : (upload_to_bucket exec9 kvmConfig.cloud_images_path
            (timestampName exampleSettings kvmConfig "GenericCloud") exampleSettings.bucket
            [buildLogName "GenericCloud" "x86_64" exampleSettings.dtSuffix,
              outputFile "GenericCloud" "9" "x86_64"]).2 with e'' | u
      all_goals simp only [hup] at hm
      all_goals simp at hm
      all_goals
        rcases hm with hm | hm
        · exact hm
        · rcases upload_events_shape exec9 _ _ _ _ _ hm with ⟨f, hf⟩ | ⟨f, chk, hf⟩ <;>
            exact absurd hf (by simp)

/-- Witness instance for C8 at the all-succeeding oracle. -/
theorem gencloud_major8_runs_second_pass_witness :
    (∃ t, (build_stage kvmConfig exampleSettings "GenericCloud" "8" (fun _ => .ok "")).1 =
      [Ev.connect, Ev.execute packerInitCmd,
        Ev.execute (kvmConfig.packer_build_gencloud "8"
          (buildLogName "GenericCloud" "x86_64" exampleSettings.dtSuffix)),
        Ev.sftpDownload (buildLogName "GenericCloud" "x86_64" exampleSettings.dtSuffix),
        Ev.execute (kvmConfig.packer_build_gencloud2 "8"
          (buildLog2Name "GenericCloud" "x86_64" exampleSettings.dtSuffix))] ++ t) ∧
    Ev.uploadBatch [buildLogName "GenericCloud" "x86_64" exampleSettings.dtSuffix,
        outputFile "GenericCloud" "8" "x86_64",
        buildLog2Name "GenericCloud" "x86_64" exampleSettings.dtSuffix,
        outputFile2 "8" "x86_64"] ∈
      (build_stage kvmConfig exampleSettings "GenericCloud" "8" (fun _ => .ok "")).1 ∧
    (∀ c, Ev.execute c ∈
        (build_stage kvmConfig exampleSettings "GenericCloud" "9" (fun _ => .ok "")).1 →
      c = packerInitCmd ∨
        c = kvmConfig.packer_build_gencloud "9"
          (buildLogName "GenericCloud" "x86_64" exampleSettings.dtSuffix)) ∧
    (∀ fs, Ev.uploadBatch fs ∈
        (build_stage kvmConfig exampleSettings "GenericCloud" "9" (fun _ => .ok "")).1 →
      fs = [buildLogName "GenericCloud" "x86_64" exampleSettings.dtSuffix,
        outputFile "GenericCloud" "9" "x86_64"]) :=
  gencloud_major8_runs_second_pass (fun _ => .ok "") (fun _ => .ok "") "" "" rfl rfl

end Alcib
